import Mathlib

/-!
Verification of the github-server proxy (`src/index.js`).

The repository ships two variants of the same Express server in one source
file: a cookie-only variant (the token is stored directly in an http-only
`gh_token` cookie) and a session variant (the token lives in a server-side
session, `express-session` + `passport.session`).  Both variants are embedded
below; definitions carrying no suffix belong to the cookie variant or are
line-identical in both, definitions suffixed `Session` belong to the session
variant.

JavaScript strings are modelled as Lean `String`; the JS string operations
used by the source (`split`, `trim`, `toLowerCase`) are embedded over the
character list so that everything evaluates inside the kernel.  JS `undefined`
is modelled as `Option.none`; JS falsiness of strings (`""` is falsy) and of
JSON values is made explicit.  JSON values are the inductive `Jx`.
-/

namespace GithubServer

/-- JSON-like values: request/response bodies and upstream payloads. -/
inductive Jx where
  | null
  | bool (b : Bool)
  | num (n : Nat)
  | str (s : String)
  | arr (elems : List Jx)
  | obj (fields : List (String × Jx))
  deriving Repr

/-- JavaScript truthiness on JSON values: `null`/`undefined`, `false`, `0`
and `""` are falsy, everything else (arrays and objects included) is truthy. -/
def Jx.falsy : Jx → Bool
  | .null => true
  | .bool b => !b
  | .num n => n == 0
  | .str s => s == ""
  | .arr _ => false
  | .obj _ => false

/-- Property access `j.k` on a JSON value: the first binding of the key in an
object, `null` (standing for JS `undefined`) otherwise. -/
def Jx.get (j : Jx) (k : String) : Jx :=
  match j with
  | .obj fs =>
    match fs.lookup k with
    | some v => v
    | none => .null
  | _ => .null

/-- Whether an object value carries the given key. -/
def Jx.hasField (j : Jx) (k : String) : Bool :=
  match j with
  | .obj fs => (fs.lookup k).isSome
  | _ => false

/-- Assignment `obj.k = v`: overwrite the first binding of `k` or append it. -/
def setFieldList (fs : List (String × Jx)) (k : String) (v : Jx) : List (String × Jx) :=
  match fs with
  | [] => [(k, v)]
  | (k2, v2) :: rest => if k2 = k then (k2, v) :: rest else (k2, v2) :: setFieldList rest k v

/-- Assignment `j.k = v` on a JSON value (a no-op on non-objects). -/
def Jx.setField (j : Jx) (k : String) (v : Jx) : Jx :=
  match j with
  | .obj fs => .obj (setFieldList fs k v)
  | other => other

/-- Number of elements of an array value (0 on non-arrays). -/
def Jx.arrLen : Jx → Nat
  | .arr xs => xs.length
  | _ => 0

namespace Js

/-- One step of `String.prototype.split` with a one-character separator. -/
def splitAux (sep : Char) : List Char → List Char → List String
  | [], acc => [String.mk acc.reverse]
  | c :: rest, acc =>
    if c = sep then String.mk acc.reverse :: splitAux sep rest []
    else splitAux sep rest (c :: acc)

/-- JS `s.split(sep)` for a one-character separator (the source only splits
on `","`).  As in JS, `"".split(",") = [""]`. -/
def split (s : String) (sep : Char) : List String := splitAux sep s.data []

/-- ASCII whitespace recognised by JS `trim` on the inputs at hand. -/
def isSpace (c : Char) : Bool := c = ' ' || c = '\t' || c = '\n' || c = '\r'

/-- Drop leading whitespace characters. -/
def dropSpace : List Char → List Char
  | [] => []
  | c :: rest => if isSpace c then dropSpace rest else c :: rest

/-- JS `s.trim()`: strip whitespace from both ends. -/
def trim (s : String) : String :=
  String.mk ((dropSpace (dropSpace s.data).reverse).reverse)

/-- Lower-case one character; the source compares GitHub usernames, which are
ASCII, so the ASCII range of `toLowerCase` is what matters. -/
def lowerChar (c : Char) : Char :=
  if 'A' ≤ c ∧ c ≤ 'Z' then Char.ofNat (c.toNat + 32) else c

/-- JS `s.toLowerCase()` on the ASCII range. -/
def toLowerCase (s : String) : String := String.mk (s.data.map lowerChar)

/-- JS `a || b` on possibly-absent strings: an absent or empty (falsy) left
operand falls through to the right operand. -/
def orStr (a b : Option String) : Option String :=
  match a with
  | some s => if s = "" then b else some s
  | none => b

/-- JS truthiness of a possibly-absent string (`undefined` and `""` falsy). -/
def truthyStr : Option String → Bool
  | some s => !(s == "")
  | none => false

end Js

/-- UTF-8 encoding of one code point, as a list of byte values. -/
def utf8Bytes (c : Nat) : List Nat :=
  if c < 0x80 then [c]
  else if c < 0x800 then [0xC0 + c / 64, 0x80 + c % 64]
  else if c < 0x10000 then [0xE0 + c / 4096, 0x80 + c / 64 % 64, 0x80 + c % 64]
  else [0xF0 + c / 262144, 0x80 + c / 4096 % 64, 0x80 + c / 64 % 64, 0x80 + c % 64]

/-- UTF-8 byte values of a character list. -/
def utf8Str : List Char → List Nat
  | [] => []
  | c :: rest => utf8Bytes c.toNat ++ utf8Str rest

/-- The base64 alphabet. -/
def b64Char (n : Nat) : Char :=
  "ABCDEFGHIJKLMNOPQRSTUVWXYZabcdefghijklmnopqrstuvwxyz0123456789+/".data.getD n 'A'

/-- Encode a byte list in base64, three bytes to four characters, `=`-padded. -/
def b64Group : List Nat → List Char
  | b0 :: b1 :: b2 :: rest =>
      b64Char (b0 / 4) :: b64Char (b0 % 4 * 16 + b1 / 16) ::
        b64Char (b1 % 16 * 4 + b2 / 64) :: b64Char (b2 % 64) :: b64Group rest
  | [b0, b1] => [b64Char (b0 / 4), b64Char (b0 % 4 * 16 + b1 / 16), b64Char (b1 % 16 * 4), '=']
  | [b0] => [b64Char (b0 / 4), b64Char (b0 % 4 * 16), '=', '=']
  | [] => []

/-- The source expression `Buffer.from(s, "utf8").toString("base64")`. -/
def base64Encode (s : String) : String := String.mk (b64Group (utf8Str s.data))

/-- Hexadecimal digit (upper case, as produced by `encodeURIComponent`). -/
def hexChar (n : Nat) : Char := "0123456789ABCDEF".data.getD n '0'

/-- Characters `encodeURIComponent` leaves unescaped. -/
def eucUnreserved (c : Char) : Bool :=
  c.isAlpha || c.isDigit || ['-', '_', '.', '!', '~', '*', Char.ofNat 39, '(', ')'].contains c

/-- Percent-escape a list of byte values. -/
def percentBytes : List Nat → List Char
  | [] => []
  | b :: rest => '%' :: hexChar (b / 16) :: hexChar (b % 16) :: percentBytes rest

/-- Characters of `encodeURIComponent`, processed left to right. -/
def encodeURIChars : List Char → List Char
  | [] => []
  | c :: rest =>
    (if eucUnreserved c then [c] else percentBytes (utf8Bytes c.toNat)) ++ encodeURIChars rest

/-- JS `encodeURIComponent`, used by the spec-update route on the file path. -/
def encodeURIComponent (s : String) : String := String.mk (encodeURIChars s.data)

/-! ## Allow-list and the OAuth verify callback -/

/-- Source: `ALLOWED_USERS.split(",").map(s => s.trim()).filter(Boolean)` — parse the
configured comma-separated allow-list, trimming entries and dropping the
empty (falsy) ones. -/
def allowedUsers (ALLOWED_USERS : String) : List String :=
  ((Js.split ALLOWED_USERS ',').map Js.trim).filter (fun s => !(s == ""))

/-- The provider profile delivered to the GitHubStrategy verify callback.
Absent fields are `none`; JS `||` fallback also skips empty strings. -/
structure Profile where
  username : Option String := none
  login : Option String := none
  displayName : Option String := none

/-- Source: `profile.username || profile.login || profile.displayName || ""`. -/
def rawProfileName (p : Profile) : String :=
  (Js.orStr p.username (Js.orStr p.login p.displayName)).getD ""

/-- The GitHubStrategy verify callback: attaches the access token to the
profile, then applies the allow-list gate; `none` models
`done(null, false, ...)` (login refused), `some` models `done(null, profile)`
with the token-bearing profile. -/
def verifyCallback (allowed : List String) (accessToken : String) (p : Profile) :
    Option (Profile × String) :=
  if allowed.length > 0 then
    let username := Js.toLowerCase (rawProfileName p)
    let isAllowed := allowed.any fun u => Js.toLowerCase u == username
    if !isAllowed then none else some (p, accessToken)
  else some (p, accessToken)

/-- Whether the OAuth verify step lets the identity through. -/
def loginSucceeds (allowed : List String) (accessToken : String) (p : Profile) : Bool :=
  (verifyCallback allowed accessToken p).isSome

/-! ## HTTP responses, auth middleware, upstream client -/

/-- The response an Express handler sends back: status plus JSON body. -/
structure HttpResponse where
  status : Nat
  body : Jx
  deriving Repr

/-- The 401 body shared by both variants of `ensureAuthenticated`. -/
def unauthorizedBody : Jx :=
  .obj [("error", .str "Unauthorized. Please log in via /auth/github")]

/-- Outcome of the cookie-variant middleware: reject with a response, or call
`next()` with `req.user = { token }` attached. -/
inductive AuthOutcome where
  | reject (resp : HttpResponse)
  | proceed (token : String)
  deriving Repr

/-- Cookie-variant `ensureAuthenticated`: read `req.cookies?.gh_token`; a
missing or empty (falsy) token is rejected with 401, otherwise the raw cookie
value becomes the request's credential. -/
def ensureAuthenticated (ghToken : Option String) : AuthOutcome :=
  match ghToken with
  | none => .reject ⟨401, unauthorizedBody⟩
  | some t => if t = "" then .reject ⟨401, unauthorizedBody⟩ else .proceed t

/-- The user object `passport.serializeUser` stores in the session. -/
structure SessionUser where
  id : Jx := .null
  username : Jx := .null
  displayName : Jx := .null
  photos : Jx := .null
  token : String := ""
  deriving Repr

/-- Outcome of the session-variant middleware. -/
inductive SessionAuth where
  | reject (resp : HttpResponse)
  | proceed (u : SessionUser)
  deriving Repr

/-- Session-variant `ensureAuthenticated`:
`req.isAuthenticated() && req.user && req.user.token` — the request proceeds
only when a session user with a truthy token is present. -/
def ensureAuthenticatedSession (user : Option SessionUser) : SessionAuth :=
  match user with
  | none => .reject ⟨401, unauthorizedBody⟩
  | some u => if u.token = "" then .reject ⟨401, unauthorizedBody⟩ else .proceed u

/-- An axios failure: either an HTTP response from the upstream (status, data
and the axios error message) or a network-level failure with no response. -/
inductive UpErr where
  | http (status : Nat) (data : Jx) (message : String)
  | network (message : String)

/-- The upstream API (api.github.com) as the environment sees it: a response
for every (token, method, path, data, params) tuple. -/
structure Upstream where
  respond : String → String → String → Jx → List (String × String) → Except UpErr Jx

/-- Source: `githubRequest(token, method, path, data, params)`, instrumented with a
call counter so that "zero upstream calls" is a provable statement: every
invocation bumps the counter by one. -/
def githubRequest (up : Upstream) (token method path : String) (data : Jx)
    (params : List (String × String)) (calls : Nat) : Except UpErr Jx × Nat :=
  (up.respond token method path data params, calls + 1)

/-- Source: `err.response?.status || 500` from the shared catch block. -/
def errStatus : UpErr → Nat
  | .http s _ _ => if s = 0 then 500 else s
  | .network _ => 500

/-- Source: `err.response?.data || err.message` from the shared catch block: the
upstream body when truthy, the local error message otherwise. -/
def errData : UpErr → Jx
  | .http _ d m => if d.falsy then .str m else d
  | .network m => .str m

/-- The catch block every route shares:
`res.status(err.response?.status || 500).json({ error: err.response?.data || err.message })`. -/
def errResponse (e : UpErr) : HttpResponse := ⟨errStatus e, .obj [("error", errData e)]⟩

/-! ## Route handlers (cookie variant; shared ones noted) -/

/-- Stand-in for the engine's TypeError message thrown when the me-route
destructuring `const { id, login, name, avatar_url } = me` is applied to a
null body; the exact wording is JS-engine detail, what matters to the catch
block is a local error with no upstream response attached. -/
def destructureNullMessage : String :=
  "Cannot destructure property id of me as it is null"

/-- Route `GET /api/me` (cookie variant): fetch `/user` upstream and reshape
the profile fields.  A 200 upstream answer whose body is `null` makes the
destructuring throw, so the route's catch answers 500 with the local error
message; any other body destructures fine (absent properties become
`undefined`, modelled `null`). -/
def handleMe (up : Upstream) (tok : String) : HttpResponse × Nat :=
  match githubRequest up tok "GET" "/user" (.obj []) [] 0 with
  | (.ok .null, n) => (⟨500, .obj [("error", .str destructureNullMessage)]⟩, n)
  | (.ok me, n) =>
      (⟨200, .obj [("id", me.get "id"), ("username", me.get "login"),
        ("displayName", me.get "name"),
        ("photos", .arr [.obj [("value", me.get "avatar_url")]])]⟩, n)
  | (.error e, n) => (errResponse e, n)

/-- The JS object spread `{ ...query, k: v }`: the explicit key overrides any
same-named query key. -/
def setParam (ps : List (String × String)) (k v : String) : List (String × String) :=
  ps.filter (fun kv => kv.1 ≠ k) ++ [(k, v)]

/-- Stand-in for the engine's TypeError message thrown when `repos.length`
is read off a null page; again a local error with no upstream response. -/
def lengthOfNullMessage : String :=
  "Cannot read properties of null (reading length)"

/-- The `while (more)` pagination loop of `GET /api/repos` (cookie variant):
page size 100, page numbers from 1, stop after the first page shorter than
100, concatenating pages in order.  The loop has no bound in the source, so
it takes fuel here; `none` means the fuel ran out before the loop stopped.
Non-array 200 bodies follow the source's JS semantics: `concat` appends a
non-array as a single element; a null body makes `repos.length` throw, so
the catch answers 500; a string body has its character length compared
against 100, so a short string stops the loop; any other value has
`undefined` length, `undefined < 100` is false, and the loop keeps going. -/
def reposLoop (up : Upstream) (tok : String) (query : List (String × String)) :
    Nat → Nat → List Jx → Nat → Option (HttpResponse × Nat)
  | 0, _, _, _ => none
  | fuel + 1, page, allRepos, calls =>
    let params := setParam (setParam query "per_page" "100") "page" (toString page)
    match githubRequest up tok "GET" "/user/repos" (.obj []) params calls with
    | (.error e, calls2) => some (errResponse e, calls2)
    | (.ok (.arr repos), calls2) =>
      if repos.length < 100 then some (⟨200, .arr (allRepos ++ repos)⟩, calls2)
      else reposLoop up tok query fuel (page + 1) (allRepos ++ repos) calls2
    | (.ok .null, calls2) => some (⟨500, .obj [("error", .str lengthOfNullMessage)]⟩, calls2)
    | (.ok (.str s), calls2) =>
      if s.length < 100 then some (⟨200, .arr (allRepos ++ [.str s])⟩, calls2)
      else reposLoop up tok query fuel (page + 1) (allRepos ++ [.str s]) calls2
    | (.ok v, calls2) => reposLoop up tok query fuel (page + 1) (allRepos ++ [v]) calls2

/-- Route `GET /api/repos` (cookie variant): run the pagination loop from page 1
with an empty accumulator. -/
def handleRepos (up : Upstream) (tok : String) (query : List (String × String))
    (fuel : Nat) : Option (HttpResponse × Nat) :=
  reposLoop up tok query fuel 1 [] 0

/-- The shape shared by the plain GET proxy routes (branches, contents,
commits, git trees; also the session variant's un-paginated `/api/repos`):
forward the query, relay the JSON result or the error envelope. -/
def handleSimpleGet (up : Upstream) (tok path : String)
    (query : List (String × String)) : HttpResponse × Nat :=
  match githubRequest up tok "GET" path (.obj []) query 0 with
  | (.ok d, n) => (⟨200, d⟩, n)
  | (.error e, n) => (errResponse e, n)

/-- The fields a write route destructures from `req.body`; `none` is an
absent (JS `undefined`) field. -/
structure WriteBody where
  path : Option String := none
  content : Option String := none
  message : Option String := none
  branch : Option String := none
  sha : Option String := none
  committer : Option Jx := none
  push : Bool := false

/-- An all-defaults request body (`{}`). -/
def wbEmpty : WriteBody := {}

/-- The payload of the cookie-variant `PUT /api/repos/:owner/:repo/contents/:path`:
`{ message, content }` with `content` forwarded verbatim
("Already base64 from frontend"), then `branch`, `sha`, `committer` added
when truthy, in source order. -/
def putContentsPayload (message content : String) (branch sha : Option String)
    (committer : Option Jx) : Jx :=
  .obj ([("message", .str message), ("content", .str content)]
    ++ (match branch with
        | some b => if b = "" then [] else [("branch", .str b)]
        | none => [])
    ++ (match sha with
        | some s => if s = "" then [] else [("sha", .str s)]
        | none => [])
    ++ (match committer with
        | some c => if c.falsy then [] else [("committer", c)]
        | none => []))

/-- The payload of the session-variant PUT route: identical to the cookie
variant except that `content` is base64-encoded from UTF-8 before being sent. -/
def putContentsPayloadSession (message content : String) (branch sha : Option String)
    (committer : Option Jx) : Jx :=
  .obj ([("message", .str message), ("content", .str (base64Encode content))]
    ++ (match branch with
        | some b => if b = "" then [] else [("branch", .str b)]
        | none => [])
    ++ (match sha with
        | some s => if s = "" then [] else [("sha", .str s)]
        | none => [])
    ++ (match committer with
        | some c => if c.falsy then [] else [("committer", c)]
        | none => []))

/-- The payload of `POST /api/repos/:owner/:repo/spec/update` (line-identical
in both variants): `content` base64-encoded, `branch` and `sha` added when
truthy (`existingSha` is the raw `existing.sha` value, `Jx.null` when the
lookup failed). -/
def specUpdatePayload (message content : String) (branch : Option String)
    (existingSha : Jx) : Jx :=
  .obj ([("message", .str message), ("content", .str (base64Encode content))]
    ++ (match branch with
        | some b => if b = "" then [] else [("branch", .str b)]
        | none => [])
    ++ (if existingSha.falsy then [] else [("sha", existingSha)]))

/-- Route `POST /api/repos/:owner/:repo/spec/update` (line-identical in both
variants): default path `spec.yaml` and message, reject missing/empty
`content` with 400 before any upstream call, then a best-effort GET of the
existing file whose failure for any reason (`catch (e) {}`) leaves
`existingSha` null, then the PUT. -/
def handleSpecUpdate (up : Upstream) (tok owner repo : String) (b : WriteBody) :
    HttpResponse × Nat :=
  match b.content with
  | none => (⟨400, .obj [("error", .str "content is required")]⟩, 0)
  | some content =>
    if content = "" then (⟨400, .obj [("error", .str "content is required")]⟩, 0)
    else
      let path := b.path.getD "spec.yaml"
      let message := b.message.getD "Update spec via API"
      let contentsPath :=
        "/repos/" ++ owner ++ "/" ++ repo ++ "/contents/" ++ encodeURIComponent path
      let refParams := match b.branch with | some br => [("ref", br)] | none => []
      let (lookupRes, calls1) := githubRequest up tok "GET" contentsPath (.obj []) refParams 0
      let existingSha : Jx :=
        match lookupRes with
        | .ok existing => existing.get "sha"
        | .error _ => .null
      let payload := specUpdatePayload message content b.branch existingSha
      match githubRequest up tok "PUT" contentsPath payload [] calls1 with
      | (.ok d, calls2) => (⟨200, d⟩, calls2)
      | (.error e, calls2) => (errResponse e, calls2)

/-- Route `PUT /api/repos/:owner/:repo/contents/:path` (cookie variant): no
validation — `content` defaults to `""` and is forwarded verbatim; on
success, a truthy `push` field annotates the upstream result. -/
def handlePutContents (up : Upstream) (tok owner repo path : String) (b : WriteBody) :
    HttpResponse × Nat :=
  let message := b.message.getD "Update via API"
  let content := b.content.getD ""
  let payload := putContentsPayload message content b.branch b.sha b.committer
  match githubRequest up tok "PUT" ("/repos/" ++ owner ++ "/" ++ repo ++ "/contents/" ++ path)
      payload [] 0 with
  | (.ok d, n) =>
    (⟨200, if b.push then
        d.setField "push"
          (.obj [("success", .bool true),
            ("message", .str "Commit created and available on remote")])
      else d⟩, n)
  | (.error e, n) => (errResponse e, n)

/-- Route `PUT /api/repos/:owner/:repo/contents/:path` (session variant): same
route but the payload base64-encodes `content`, and there is no `push`
annotation. -/
def handlePutContentsSession (up : Upstream) (tok owner repo path : String)
    (b : WriteBody) : HttpResponse × Nat :=
  let message := b.message.getD "Update via API"
  let content := b.content.getD ""
  let payload := putContentsPayloadSession message content b.branch b.sha b.committer
  match githubRequest up tok "PUT" ("/repos/" ++ owner ++ "/" ++ repo ++ "/contents/" ++ path)
      payload [] 0 with
  | (.ok d, n) => (⟨200, d⟩, n)
  | (.error e, n) => (errResponse e, n)

/-! ## Route table and dispatch -/

/-- The protected (`/api/*`) routes, with their path parameters. -/
inductive Route where
  | me
  | repos
  | branches (owner repo : String)
  | contentsRoot (owner repo : String)
  | contentsPath (owner repo path : String)
  | commits (owner repo : String)
  | gitTrees (owner repo sha : String)
  | specUpdate (owner repo : String)
  | putContents (owner repo path : String)

/-- Cookie-variant route handlers, invoked after the middleware attached the
token; `fuel` bounds only the repos pagination loop. -/
def routeHandler (fuel : Nat) (r : Route) (tok : String) (query : List (String × String))
    (body : WriteBody) (up : Upstream) : Option (HttpResponse × Nat) :=
  match r with
  | .me => some (handleMe up tok)
  | .repos => handleRepos up tok query fuel
  | .branches o rp => some (handleSimpleGet up tok ("/repos/" ++ o ++ "/" ++ rp ++ "/branches") query)
  | .contentsRoot o rp => some (handleSimpleGet up tok ("/repos/" ++ o ++ "/" ++ rp ++ "/contents") query)
  | .contentsPath o rp p => some (handleSimpleGet up tok ("/repos/" ++ o ++ "/" ++ rp ++ "/contents/" ++ p) query)
  | .commits o rp => some (handleSimpleGet up tok ("/repos/" ++ o ++ "/" ++ rp ++ "/commits") query)
  | .gitTrees o rp sha => some (handleSimpleGet up tok ("/repos/" ++ o ++ "/" ++ rp ++ "/git/trees/" ++ sha) query)
  | .specUpdate o rp => some (handleSpecUpdate up tok o rp body)
  | .putContents o rp p => some (handlePutContents up tok o rp p body)

/-- A protected route of the cookie variant end to end: `ensureAuthenticated`
runs first; on rejection the response is sent with zero upstream calls and
the handler never runs. -/
def dispatchCookie (fuel : Nat) (r : Route) (ghToken : Option String)
    (query : List (String × String)) (body : WriteBody) (up : Upstream) :
    Option (HttpResponse × Nat) :=
  match ensureAuthenticated ghToken with
  | .reject resp => some (resp, 0)
  | .proceed tok => routeHandler fuel r tok query body up

/-- Session-variant route handlers.  `/api/me` answers from the session user
with no upstream call; `/api/repos` is a single un-paginated upstream call;
the remaining GET routes are line-identical to the cookie variant. -/
def routeHandlerSession (r : Route) (u : SessionUser) (query : List (String × String))
    (body : WriteBody) (up : Upstream) : HttpResponse × Nat :=
  match r with
  | .me => (⟨200, .obj [("id", u.id), ("username", u.username),
      ("displayName", u.displayName), ("photos", u.photos)]⟩, 0)
  | .repos => handleSimpleGet up u.token "/user/repos" query
  | .branches o rp => handleSimpleGet up u.token ("/repos/" ++ o ++ "/" ++ rp ++ "/branches") query
  | .contentsRoot o rp => handleSimpleGet up u.token ("/repos/" ++ o ++ "/" ++ rp ++ "/contents") query
  | .contentsPath o rp p => handleSimpleGet up u.token ("/repos/" ++ o ++ "/" ++ rp ++ "/contents/" ++ p) query
  | .commits o rp => handleSimpleGet up u.token ("/repos/" ++ o ++ "/" ++ rp ++ "/commits") query
  | .gitTrees o rp sha => handleSimpleGet up u.token ("/repos/" ++ o ++ "/" ++ rp ++ "/git/trees/" ++ sha) query
  | .specUpdate o rp => handleSpecUpdate up u.token o rp body
  | .putContents o rp p => handlePutContentsSession up u.token o rp p body

/-- A protected route of the session variant end to end. -/
def dispatchSession (r : Route) (user : Option SessionUser)
    (query : List (String × String)) (body : WriteBody) (up : Upstream) :
    HttpResponse × Nat :=
  match ensureAuthenticatedSession user with
  | .reject resp => (resp, 0)
  | .proceed u => routeHandlerSession r u query body up

/-! ## OAuth callback, logout, session store -/

/-- What the cookie-variant OAuth callback does once passport has run the
verify callback: location of the redirect, and the `gh_token` cookie value
when one is set. -/
structure CallbackResult where
  location : String
  cookieSet : Option String
  deriving Repr

/-- Route `GET /auth/github/callback` (cookie variant): a falsy `user` (the verify
callback refused) redirects to the static unauthorized page with no cookie;
otherwise the `gh_token` cookie is set to the profile's token and the caller
is redirected to the root. -/
def authCallbackCookie (user : Option (Profile × String)) : CallbackResult :=
  match user with
  | none => ⟨"/unauthorized.html", none⟩
  | some (_, tok) => ⟨"/", some tok⟩

/-- Route `POST /logout` (cookie variant): `clearCookie` only instructs the client
to drop the cookie; the server holds no record of issued tokens, so no server
state changes. -/
structure LogoutCookieResult where
  clearCookie : Bool
  resp : HttpResponse

/-- The cookie-variant logout response. -/
def logoutCookie : LogoutCookieResult :=
  ⟨true, ⟨200, .obj [("message", .str "Logged out")]⟩⟩

/-- The server-side session store of the session variant (`express-session`):
session id to serialized user, one key per caller.  The store itself is
third-party middleware; its keyed lookup/destroy behavior is as the spec
describes the Credential Store lifecycle. -/
abbrev SessionStore := List (String × SessionUser)

/-- Resolve a request's session cookie to its user, if any. -/
def sessionUserOf (store : SessionStore) (sid : Option String) : Option SessionUser :=
  match sid with
  | some s => store.lookup s
  | none => none

/-- Route `POST /logout` (session variant): `req.logout()` and `req.session.destroy()`
remove the caller's session from the store, the cookie is cleared, and
`{ ok: true }` is returned. -/
def logoutSession (store : SessionStore) (sid : Option String) :
    SessionStore × HttpResponse :=
  (match sid with
   | some s => store.filter (fun kv => !(kv.1 == s))
   | none => store,
   ⟨200, .obj [("ok", .bool true)]⟩)

/-! ## Mock upstreams used in statements and witnesses -/

/-- An upstream that answers every call with `null`. -/
def upNull : Upstream := ⟨fun _ _ _ _ _ => .ok .null⟩

/-- An upstream that fails every call with the given error. -/
def mkErrUpstream (e : UpErr) : Upstream := ⟨fun _ _ _ _ _ => .error e⟩

/-- An upstream that serves GET requests with a fixed result and echoes the
request payload back for any other method — so the body a write route sends
upstream is observable in the response. -/
def echoPutUpstream (onGet : Except UpErr Jx) : Upstream :=
  ⟨fun _ method _ data _ => if method = "GET" then onGet else .ok data⟩

/-- A paginated upstream keyed by the `page` query parameter (as GitHub,
page 1 when the parameter is absent). -/
def mkPagedUpstream (pages : String → List Jx) : Upstream :=
  ⟨fun _ _ _ _ params => .ok (.arr (pages ((params.lookup "page").getD "1")))⟩

/-- The mocked upstream of the pagination test: pages of sizes 100, 100, 37. -/
def pages3cx : String → List Jx := fun p =>
  if p = "1" then List.replicate 100 .null
  else if p = "2" then List.replicate 100 .null
  else if p = "3" then List.replicate 37 .null
  else []

/-- A session user holding token `"t"`. -/
def sessionUserT : SessionUser := { token := "t" }

/-- A request body carrying only `content: "hello"`. -/
def wbHello : WriteBody := { content := some "hello" }

/-! ## C1: the allow-list gate -/

/-- C1: for every configured allow-list (parsed from the comma-separated
`ALLOWED_USERS` value by trimming entries and dropping empty ones) and every
identity resolved during the OAuth exchange, login succeeds if and only if
the list is empty or the identity's username (falling back to login, then
display name, then the empty string) case-insensitively equals some member
of the list. -/
theorem allowlist_gate_iff (cfg accessToken : String) (p : Profile) :
    loginSucceeds (allowedUsers cfg) accessToken p = true ↔
      (allowedUsers cfg = [] ∨
        ∃ u ∈ allowedUsers cfg,
          Js.toLowerCase u = Js.toLowerCase (rawProfileName p)) := by
  unfold loginSucceeds verifyCallback
  rcases eq_or_ne (allowedUsers cfg) [] with h | h
  · simp [h]
  · have hlen : (allowedUsers cfg).length > 0 := List.length_pos.mpr h
    rw [if_pos hlen]
    dsimp only
    rcases hA : (allowedUsers cfg).any
        (fun u => Js.toLowerCase u == Js.toLowerCase (rawProfileName p)) with _ | _
    · rw [List.any_eq_false] at hA
      constructor
      · intro hs; simp at hs
      · rintro (hnil | ⟨u, hu, he⟩)
        · exact absurd hnil h
        · exact absurd (beq_iff_eq.mpr he) (hA u hu)
    · rw [List.any_eq_true] at hA
      obtain ⟨u, hu, he⟩ := hA
      constructor
      · intro _; exact Or.inr ⟨u, hu, beq_iff_eq.mp he⟩
      · intro _; simp

/-! ## C2: protected routes reject missing credentials with zero upstream calls -/

/-- C2: on every protected route, a request carrying no credential (missing
or empty `gh_token` cookie in the cookie variant; no session user, or one
with an empty token, in the session variant) is answered with status 401 and
the `{error: "Unauthorized. Please log in via /auth/github"}` body, and the
upstream call counter stays at zero. -/
theorem unauthorized_request_rejected (fuel : Nat) (r : Route) (ghToken : Option String)
    (user : Option SessionUser) (q : List (String × String)) (b : WriteBody)
    (up : Upstream) :
    ((ghToken = none ∨ ghToken = some "") →
      dispatchCookie fuel r ghToken q b up = some (⟨401, unauthorizedBody⟩, 0)) ∧
    ((user = none ∨ ∃ u, user = some u ∧ u.token = "") →
      dispatchSession r user q b up = (⟨401, unauthorizedBody⟩, 0)) := by
  constructor
  · rintro (rfl | rfl) <;> rfl
  · rintro (rfl | ⟨u, rfl, hu⟩)
    · rfl
    · simp [dispatchSession, ensureAuthenticatedSession, hu]

/-- Witness for C2 at a concrete route and request. -/
theorem unauthorized_request_rejected_witness :
    dispatchCookie 1 .me none [] wbEmpty upNull = some (⟨401, unauthorizedBody⟩, 0) ∧
    dispatchSession .me none [] wbEmpty upNull = (⟨401, unauthorizedBody⟩, 0) :=
  ⟨(unauthorized_request_rejected 1 .me none none [] wbEmpty upNull).1 (Or.inl rfl),
   (unauthorized_request_rejected 1 .me none none [] wbEmpty upNull).2 (Or.inl rfl)⟩

/-! ## C10: the cookie middleware admits any non-empty token, unverified -/

/-- C10: the cookie-variant middleware admits a request exactly when the
`gh_token` cookie is present and non-empty, and then any such request — the
value is checked against nothing — reaches the route handler with that very
string attached as its credential token. -/
theorem cookie_auth_admits_any_token (ghToken : Option String) (t : String) :
    (ensureAuthenticated ghToken = .proceed t ↔ ghToken = some t ∧ t ≠ "") ∧
    (∀ fuel r q b up s, s ≠ "" →
      dispatchCookie fuel r (some s) q b up = routeHandler fuel r s q b up) := by
  constructor
  · cases ghToken with
    | none =>
      constructor
      · intro h; exact AuthOutcome.noConfusion h
      · rintro ⟨h, _⟩; exact Option.noConfusion h
    | some s =>
      by_cases hs : s = ""
      · subst hs
        rw [ensureAuthenticated, if_pos rfl]
        constructor
        · intro h; exact AuthOutcome.noConfusion h
        · rintro ⟨h1, h2⟩; exact absurd (Option.some.inj h1).symm h2
      · rw [ensureAuthenticated, if_neg hs]
        constructor
        · intro h
          obtain rfl := AuthOutcome.proceed.inj h
          exact ⟨rfl, hs⟩
        · rintro ⟨h1, _⟩
          rw [Option.some.inj h1]
  · intro fuel r q b up s hs
    simp [dispatchCookie, ensureAuthenticated, hs]

/-- Witness for C10 at a concrete token and route. -/
theorem cookie_auth_admits_any_token_witness :
    ensureAuthenticated (some "not-a-real-github-token") = .proceed "not-a-real-github-token" ∧
    dispatchCookie 1 .me (some "x") [] wbEmpty upNull
      = routeHandler 1 .me "x" [] wbEmpty upNull ∧ True := by
  refine ⟨(cookie_auth_admits_any_token (some "not-a-real-github-token")
      "not-a-real-github-token").1.mpr ⟨rfl, by decide⟩, ?_, trivial⟩
  exact (cookie_auth_admits_any_token none "x").2 1 .me [] wbEmpty upNull "x" (by decide)

/-! ## C8: a credential is stored only after the gate passed -/

/-- C8: in the cookie-variant OAuth callback, the `gh_token` cookie is set
only when the verify callback (which evaluates the allow-list gate) let the
identity through; on gate failure the caller is redirected to the static
unauthorized page and no cookie is set. -/
theorem credential_only_after_gate (allowed : List String) (accessToken : String)
    (p : Profile) :
    (loginSucceeds allowed accessToken p = false →
      authCallbackCookie (verifyCallback allowed accessToken p)
        = ⟨"/unauthorized.html", none⟩) ∧
    (∀ loc t, authCallbackCookie (verifyCallback allowed accessToken p) = ⟨loc, some t⟩ →
      loginSucceeds allowed accessToken p = true) := by
  constructor
  · intro hfail
    rcases hv : verifyCallback allowed accessToken p with _ | u
    · rw [authCallbackCookie]
    · rw [loginSucceeds, hv] at hfail
      simp at hfail
  · intro loc t hset
    rcases hv : verifyCallback allowed accessToken p with _ | u
    · rw [hv, authCallbackCookie] at hset
      simp at hset
    · rw [loginSucceeds, hv]
      rfl

/-- Witness for C8: a denied identity (`bob` against allow-list `alice`) gets
the unauthorized redirect and no cookie; an admitted identity gets a cookie. -/
theorem credential_only_after_gate_witness :
    authCallbackCookie (verifyCallback ["alice"] "tok" { login := some "bob" })
      = ⟨"/unauthorized.html", none⟩ ∧
    loginSucceeds ["alice"] "tok" { login := some "alice" } = true :=
  ⟨(credential_only_after_gate ["alice"] "tok" { login := some "bob" }).1 rfl,
   (credential_only_after_gate ["alice"] "tok" { login := some "alice" }).2 "/" "tok" rfl⟩

/-! ## C6: what logout actually invalidates -/

/-- Looking up a key in a store from which every binding of that key has been
filtered out yields nothing. -/
theorem lookup_filter_out_key (store : SessionStore) (sid : String) :
    (store.filter fun kv => !(kv.1 == sid)).lookup sid = none := by
  induction store with
  | nil => rfl
  | cons kv rest ih =>
    obtain ⟨k, v⟩ := kv
    by_cases hk : k = sid
    · simpa [List.filter_cons, hk] using ih
    · have hbne : (k == sid) = false := beq_eq_false_iff_ne.mpr hk
      have hbne2 : (sid == k) = false := beq_eq_false_iff_ne.mpr (Ne.symm hk)
      simp [List.filter_cons, hbne, List.lookup, hbne2, ih]

/-- C6 amended: in the session variant, logout destroys the caller's session,
so a subsequent protected-route request under the old session id is rejected
with the Unauthorized envelope and zero upstream calls.  In the cookie
variant, logout only instructs the client to clear the cookie — the server
keeps no record — so a later request still presenting the old non-empty
`gh_token` value is accepted by the middleware. -/
theorem logout_invalidation (store : SessionStore) (sid : String) (r : Route)
    (q : List (String × String)) (b : WriteBody) (up : Upstream) (t : String) :
    (dispatchSession r (sessionUserOf (logoutSession store (some sid)).1 (some sid)) q b up
        = (⟨401, unauthorizedBody⟩, 0)) ∧
    (t ≠ "" → ensureAuthenticated (some t) = .proceed t) := by
  constructor
  · rw [logoutSession]
    dsimp only
    rw [sessionUserOf, lookup_filter_out_key]
    rfl
  · intro ht
    rw [ensureAuthenticated, if_neg ht]

/-- Witness for C6 at a concrete store, session id and token. -/
theorem logout_invalidation_witness :
    dispatchSession .me
        (sessionUserOf (logoutSession [("sid1", sessionUserT)] (some "sid1")).1 (some "sid1"))
        [] wbEmpty upNull
      = (⟨401, unauthorizedBody⟩, 0) ∧
    ensureAuthenticated (some "oldtoken") = .proceed "oldtoken" :=
  ⟨(logout_invalidation [("sid1", sessionUserT)] "sid1" .me [] wbEmpty upNull "x").1,
   (logout_invalidation [] "s" .me [] wbEmpty upNull "oldtoken").2 (by decide)⟩

/-- Counterexample to C6 as stated: the cookie variant.  Logout answers 200
and changes no server state, and a subsequent protected-route request — here
the branches route, which relays the upstream body as-is — that still
presents the old `gh_token` value is served (status 200 after one upstream
call), not rejected with the Unauthorized envelope. -/
theorem logout_invalidation_cx :
    logoutCookie.resp.status = 200 ∧
    (dispatchCookie 1 (.branches "o" "r") (some "oldtoken") [] wbEmpty upNull).map
        (fun x => (x.1.status, x.2))
      = some (200, 1) ∧
    ¬ ((200 : Nat) = 401) :=
  ⟨rfl, rfl, by decide⟩

/-! ## C4: upstream error relay -/

/-- C4 amended: when the upstream fails with an HTTP response (non-zero
status `S`, truthy body `B`), the route relays status `S` but wraps the body
in the standard failure envelope `{error: B}`; on a network-level failure
with no upstream response, the route answers 500 with `{error: message}`.
Stated on the branches route, whose catch block is the one every proxied
route repeats verbatim. -/
theorem upstream_error_relay (S : Nat) (B : Jx) (msg o rp t : String)
    (q : List (String × String)) (b : WriteBody) (fuel : Nat) :
    (S ≠ 0 → B.falsy = false → t ≠ "" →
      dispatchCookie fuel (.branches o rp) (some t) q b (mkErrUpstream (.http S B msg))
        = some (⟨S, .obj [("error", B)]⟩, 1)) ∧
    (t ≠ "" →
      dispatchCookie fuel (.branches o rp) (some t) q b (mkErrUpstream (.network msg))
        = some (⟨500, .obj [("error", .str msg)]⟩, 1)) := by
  constructor
  · intro hS hB ht
    simp [dispatchCookie, ensureAuthenticated, ht, routeHandler, handleSimpleGet,
      githubRequest, mkErrUpstream, errResponse, errStatus, errData, hS, hB]
  · intro ht
    simp [dispatchCookie, ensureAuthenticated, ht, routeHandler, handleSimpleGet,
      githubRequest, mkErrUpstream, errResponse, errStatus, errData]

/-- Witness for C4 at the mocked 422 upstream and a network failure. -/
theorem upstream_error_relay_witness :
    dispatchCookie 1 (.branches "o" "r") (some "t") [] wbEmpty
        (mkErrUpstream (.http 422 (.obj [("message", .str "validation failed")])
          "Request failed with status code 422"))
      = some (⟨422, .obj [("error", .obj [("message", .str "validation failed")])]⟩, 1) ∧
    dispatchCookie 1 (.branches "o" "r") (some "t") [] wbEmpty
        (mkErrUpstream (.network "socket hang up"))
      = some (⟨500, .obj [("error", .str "socket hang up")]⟩, 1) :=
  ⟨(upstream_error_relay 422 (.obj [("message", .str "validation failed")])
      "Request failed with status code 422" "o" "r" "t" [] wbEmpty 1).1
      (by decide) rfl (by decide),
   (upstream_error_relay 422 .null "socket hang up" "o" "r" "t" [] wbEmpty 1).2 (by decide)⟩

/-- Counterexample to C4 as stated: at the mocked upstream 422 whose body is
`{message: "validation failed"}`, the proxy answers 422 but its body has no
`message` field — the upstream body was wrapped under `error`, not relayed
unchanged. -/
theorem upstream_error_relay_cx :
    (dispatchCookie 1 (.branches "o" "r") (some "t") [] wbEmpty
        (mkErrUpstream (.http 422 (.obj [("message", .str "validation failed")])
          "Request failed with status code 422"))).map (fun x => (x.1.status, x.2))
      = some (422, 1) ∧
    (dispatchCookie 1 (.branches "o" "r") (some "t") [] wbEmpty
        (mkErrUpstream (.http 422 (.obj [("message", .str "validation failed")])
          "Request failed with status code 422"))).map (fun x => x.1.body.get "message")
      = some .null ∧
    (Jx.obj [("message", .str "validation failed")]).get "message"
      = .str "validation failed" ∧
    Jx.null ≠ Jx.str "validation failed" :=
  ⟨rfl, rfl, rfl, fun h => Jx.noConfusion h⟩

/-! ## C5: base64 encoding of write content -/

/-- C5 amended: the spec-update route (both variants) and the session-variant
PUT route base64-encode the request's `content` from UTF-8 before placing it
in the upstream payload; the cookie-variant PUT route forwards `content`
verbatim, assuming the caller already base64-encoded it. -/
theorem write_content_encoding (message content : String) (branch sha : Option String)
    (committer : Option Jx) (existingSha : Jx) :
    (specUpdatePayload message content branch existingSha).get "content"
        = .str (base64Encode content) ∧
    (putContentsPayloadSession message content branch sha committer).get "content"
        = .str (base64Encode content) ∧
    (putContentsPayload message content branch sha committer).get "content"
        = .str content :=
  ⟨rfl, rfl, rfl⟩

/-- Counterexample to C5 as stated: a cookie-variant PUT with content
`"hello"` sends `"hello"` — observed end to end through an echoing upstream —
while its base64 encoding is `"aGVsbG8="`, a different string. -/
theorem write_content_encoding_cx :
    (dispatchCookie 1 (.putContents "o" "r" "f.txt") (some "t") [] wbHello
        (echoPutUpstream (.ok .null))).map (fun x => x.1.body.get "content")
      = some (.str "hello") ∧
    base64Encode "hello" = "aGVsbG8=" ∧
    ¬ (("hello" : String) = "aGVsbG8=") :=
  ⟨rfl, rfl, by decide⟩

/-! ## C9: content validation on write routes -/

/-- C9 amended: the spec-update route (identical in both variants) answers a
missing or empty `content` with status 400, body
`{error: "content is required"}`, and zero upstream calls; the PUT
content-write route performs no such validation — a missing `content`
defaults to the empty string and the upstream write is attempted (exactly
one upstream call in either variant). -/
theorem write_content_validation (up : Upstream) (tok owner repo fpath : String)
    (b : WriteBody) :
    ((b.content = none ∨ b.content = some "") →
      handleSpecUpdate up tok owner repo b
        = (⟨400, .obj [("error", .str "content is required")]⟩, 0)) ∧
    (b.content = none →
      (handlePutContents up tok owner repo fpath b).2 = 1 ∧
      (handlePutContentsSession up tok owner repo fpath b).2 = 1) := by
  constructor
  · rintro (hc | hc) <;> simp [handleSpecUpdate, hc]
  · intro hc
    constructor
    · unfold handlePutContents githubRequest
      dsimp only
      split <;> simp_all
    · unfold handlePutContentsSession githubRequest
      dsimp only
      split <;> simp_all

/-- Witness for C9: an empty body against the spec-update route gets the 400
and no upstream call; the same body against the PUT route reaches upstream. -/
theorem write_content_validation_witness :
    handleSpecUpdate upNull "t" "o" "r" wbEmpty
      = (⟨400, .obj [("error", .str "content is required")]⟩, 0) ∧
    (handlePutContents upNull "t" "o" "r" "f.txt" wbEmpty).2 = 1 :=
  ⟨(write_content_validation upNull "t" "o" "r" "f.txt" wbEmpty).1 (Or.inl rfl),
   ((write_content_validation upNull "t" "o" "r" "f.txt" wbEmpty).2 rfl).1⟩

/-- Counterexample to C9 as stated: a PUT content-write whose body lacks
`content` is not answered with 400 and zero upstream calls — the route
answers 200 after one upstream call. -/
theorem write_content_validation_cx :
    (dispatchCookie 1 (.putContents "o" "r" "f.txt") (some "t") [] wbEmpty upNull).map
        (fun x => (x.1.status, x.2))
      = some (200, 1) ∧
    ¬ (((200 : Nat), (1 : Nat)) = (400, 0)) :=
  ⟨rfl, by decide⟩

/-! ## C7: the best-effort sha lookup of the spec-update route -/

/-- When the lookup produced a non-empty sha string, the spec-update payload
carries it under `sha`. -/
theorem specUpdatePayload_sha_of_ne (message content : String) (branch : Option String)
    (S : String) (hS : S ≠ "") :
    (specUpdatePayload message content branch (.str S)).get "sha" = .str S := by
  have hf : (Jx.str S).falsy = false := beq_eq_false_iff_ne.mpr hS
  rcases branch with _ | b
  · simp [specUpdatePayload, hf, Jx.get, List.lookup]
  · by_cases hb : b = "" <;>
      simp [specUpdatePayload, hf, hb, Jx.get, List.lookup]

/-- When the lookup produced nothing (`existingSha` stayed null), the
spec-update payload has no `sha` field at all. -/
theorem specUpdatePayload_no_sha (message content : String) (branch : Option String) :
    (specUpdatePayload message content branch .null).hasField "sha" = false := by
  rcases branch with _ | b
  · rfl
  · by_cases hb : b = "" <;>
      simp [specUpdatePayload, Jx.hasField, List.lookup, hb, Jx.falsy]

/-- C7: on a spec-update request with non-empty content, a successful
preliminary lookup returning a (non-empty) sha `S` makes the subsequent PUT
payload carry `sha = S`; a lookup failing for any reason leaves the payload
without a `sha` field and the write is still attempted (the PUT is the
second upstream call and its result is relayed with status 200).  The PUT
payload is observed through an upstream that echoes it back. -/
theorem spec_update_sha_policy (tok owner repo : String) (b : WriteBody) (c : String)
    (j : Jx) (S : String) (e : UpErr)
    (hc : b.content = some c) (hcne : c ≠ "") :
    (j.get "sha" = .str S → S ≠ "" →
      handleSpecUpdate (echoPutUpstream (.ok j)) tok owner repo b
        = (⟨200, specUpdatePayload (b.message.getD "Update spec via API") c b.branch
            (.str S)⟩, 2) ∧
      (specUpdatePayload (b.message.getD "Update spec via API") c b.branch (.str S)).get "sha"
        = .str S) ∧
    (handleSpecUpdate (echoPutUpstream (.error e)) tok owner repo b
        = (⟨200, specUpdatePayload (b.message.getD "Update spec via API") c b.branch
            .null⟩, 2) ∧
      (specUpdatePayload (b.message.getD "Update spec via API") c b.branch .null).hasField "sha"
        = false) := by
  constructor
  · intro hsha hS
    constructor
    · simp [handleSpecUpdate, hc, hcne, githubRequest, echoPutUpstream, hsha]
    · exact specUpdatePayload_sha_of_ne _ c b.branch S hS
  · constructor
    · simp [handleSpecUpdate, hc, hcne, githubRequest, echoPutUpstream]
    · exact specUpdatePayload_no_sha _ c b.branch

/-- Witness for C7 at a concrete request, a lookup answering
`{sha: "abc123"}`, and a failing lookup. -/
theorem spec_update_sha_policy_witness :
    handleSpecUpdate (echoPutUpstream (.ok (.obj [("sha", .str "abc123")]))) "t" "o" "r" wbHello
      = (⟨200, specUpdatePayload "Update spec via API" "hello" none (.str "abc123")⟩, 2) ∧
    handleSpecUpdate (echoPutUpstream (.error (.network "boom"))) "t" "o" "r" wbHello
      = (⟨200, specUpdatePayload "Update spec via API" "hello" none .null⟩, 2) ∧
    (specUpdatePayload "Update spec via API" "hello" none .null).hasField "sha" = false :=
  ⟨((spec_update_sha_policy "t" "o" "r" wbHello "hello" (.obj [("sha", .str "abc123")])
      "abc123" (.network "boom") rfl (by decide)).1 rfl (by decide)).1,
   ((spec_update_sha_policy "t" "o" "r" wbHello "hello" (.obj [("sha", .str "abc123")])
      "abc123" (.network "boom") rfl (by decide)).2).1,
   ((spec_update_sha_policy "t" "o" "r" wbHello "hello" (.obj [("sha", .str "abc123")])
      "abc123" (.network "boom") rfl (by decide)).2).2⟩

/-! ## C3: pagination of the list-repositories route -/

/-- The paged mock answers the loop's parameter list with the page keyed by
the `page` parameter the loop set. -/
theorem paged_respond (pages : String → List Jx) (tok method path : String) (d : Jx)
    (x : String) :
    (mkPagedUpstream pages).respond tok method path d
        (setParam (setParam [] "per_page" "100") "page" x)
      = .ok (.arr (pages x)) := rfl

/-- One full page (length not below 100): the loop concatenates it and keeps
going with the next page number, one more upstream call on the counter. -/
theorem reposLoop_step_full (pages : String → List Jx) (tok : String) (fuel page : Nat)
    (acc : List Jx) (calls : Nat) (h : ¬ (pages (toString page)).length < 100) :
    reposLoop (mkPagedUpstream pages) tok [] (fuel + 1) page acc calls
      = reposLoop (mkPagedUpstream pages) tok [] fuel (page + 1)
          (acc ++ pages (toString page)) (calls + 1) := by
  simp only [reposLoop, githubRequest, paged_respond]
  rw [if_neg h]

/-- One short page (length below 100): the loop stops and answers the
concatenation so far, one more upstream call on the counter. -/
theorem reposLoop_step_short (pages : String → List Jx) (tok : String) (fuel page : Nat)
    (acc : List Jx) (calls : Nat) (h : (pages (toString page)).length < 100) :
    reposLoop (mkPagedUpstream pages) tok [] (fuel + 1) page acc calls
      = some (⟨200, .arr (acc ++ pages (toString page))⟩, calls + 1) := by
  simp only [reposLoop, githubRequest, paged_respond]
  rw [if_pos h]

/-- C3 amended: the cookie-variant list-repositories route paginates exactly
as the claim describes — page size 100, page numbers from 1, sequential
calls, stop after the first short page, concatenation in order: against an
upstream serving pages of sizes 100, 100, 37 it returns all 237 items with
exactly 3 upstream calls, and a first page shorter than 100 means exactly
one call.  The session-variant route does not paginate: it makes exactly one
upstream call, forwarding the caller's query, and returns that single
response. -/
theorem repos_pagination (pages : String → List Jx) (tok : String)
    (q : List (String × String)) (up : Upstream)
    (h1 : (pages "1").length = 100) (h2 : (pages "2").length = 100)
    (h3 : (pages "3").length = 37) :
    (handleRepos (mkPagedUpstream pages) tok [] 9
        = some (⟨200, .arr (pages "1" ++ pages "2" ++ pages "3")⟩, 3) ∧
      (pages "1" ++ pages "2" ++ pages "3").length = 237) ∧
    (∀ pages2 : String → List Jx, (pages2 "1").length < 100 →
      handleRepos (mkPagedUpstream pages2) tok [] 9
        = some (⟨200, .arr (pages2 "1")⟩, 1)) ∧
    ((handleSimpleGet up tok "/user/repos" q).2 = 1 ∧
      ∀ d, up.respond tok "GET" "/user/repos" (.obj []) q = .ok d →
        handleSimpleGet up tok "/user/repos" q = (⟨200, d⟩, 1)) := by
  refine ⟨⟨?_, ?_⟩, ?_, ?_, ?_⟩
  · have s1 := reposLoop_step_full pages tok 8 1 [] 0
      (by show ¬ (pages "1").length < 100; rw [h1]; decide)
    have s2 := reposLoop_step_full pages tok 7 2 (pages "1") 1
      (by show ¬ (pages "2").length < 100; rw [h2]; decide)
    have s3 := reposLoop_step_short pages tok 6 3 (pages "1" ++ pages "2") 2
      (by show (pages "3").length < 100; rw [h3]; decide)
    rw [handleRepos]
    exact s1.trans (s2.trans s3)
  · simp [h1, h2, h3]
  · intro pages2 hlt
    rw [handleRepos]
    exact reposLoop_step_short pages2 tok 8 1 [] 0
      (by show (pages2 "1").length < 100; exact hlt)
  · unfold handleSimpleGet githubRequest
    split <;> simp_all
  · intro d hd
    simp [handleSimpleGet, githubRequest, hd]

/-- Witness for C3 at the concrete 100/100/37 mock. -/
theorem repos_pagination_witness :
    handleRepos (mkPagedUpstream pages3cx) "t" [] 9
      = some (⟨200, .arr (pages3cx "1" ++ pages3cx "2" ++ pages3cx "3")⟩, 3) ∧
    (pages3cx "1" ++ pages3cx "2" ++ pages3cx "3").length = 237 ∧
    (handleSimpleGet upNull "t" "/user/repos" []).2 = 1 :=
  ⟨((repos_pagination pages3cx "t" [] upNull rfl rfl rfl).1).1,
   ((repos_pagination pages3cx "t" [] upNull rfl rfl rfl).1).2,
   ((repos_pagination pages3cx "t" [] upNull rfl rfl rfl).2).2.1⟩

/-- Counterexample to C3 as stated: the session-variant list-repositories
route, against the very 100/100/37 mock, answers with the 100 items of the
first page after a single upstream call — not 237 items after 3 calls. -/
theorem repos_pagination_cx :
    ((dispatchSession .repos (some sessionUserT) [] wbEmpty (mkPagedUpstream pages3cx)).1.status,
     (dispatchSession .repos (some sessionUserT) [] wbEmpty (mkPagedUpstream pages3cx)).1.body.arrLen,
     (dispatchSession .repos (some sessionUserT) [] wbEmpty (mkPagedUpstream pages3cx)).2)
      = (200, 100, 1) ∧
    ¬ (((100 : Nat), (1 : Nat)) = (237, 3)) :=
  ⟨rfl, by decide⟩

end GithubServer
